import Mathlib

/-!
Verification of the CEP-to-weather observability pipeline.

The repository consists of two Go HTTP services plus a shared tracer package:
  * service-a (the Gateway): receives a POST body with a "cep" field,
    validates it, forwards the request to service-b, and relays the
    response verbatim.
  * service-b (the Orchestrator): validates the cep path segment, resolves
    the locality through ViaCEP, fetches the temperature through
    WeatherAPI, converts units and answers with a JSON payload.

The embedding below translates the request-handling logic of both services
into pure Lean functions.  Network, JSON-parsing and writer failures are
supplied through explicit oracle values, and each handler additionally
produces a log of span/HTTP events so that tracing and call-ordering
properties can be stated.  Notes on abstraction choices:
  * Go float64 temperatures are modelled as rationals; every concrete
    temperature used in the theorems below is one at which the float64
    computation of the source is exact, so no rounding is hidden.
  * the body written by Go's http.Error is the message followed by a
    newline; the newline is elided uniformly on every error path.
  * response headers other than the ones the Gateway relays are elided.
-/

/-- JSON values, the domain of Go encoding/json decoding.  Object fields
are kept in source order because Go decodes members in order, later
members overwriting earlier ones. -/
inductive Json where
  | null
  | bool (b : Bool)
  | num (q : ℚ)
  | str (s : String)
  | arr (elems : List Json)
  | obj (fields : List (String × Json))

deriving instance DecidableEq for Except

/-- ASCII lowering of one character, used to model the case-insensitive
member-name matching of Go encoding/json (all JSON keys of this
repository are ASCII). -/
def foldLowerChar (c : Char) : Char :=
  if 65 ≤ c.toNat ∧ c.toNat ≤ 90 then Char.ofNat (c.toNat + 32) else c

/-- ASCII lowering of a member name. -/
def foldLower (s : String) : String :=
  String.mk (s.data.map foldLowerChar)

/-- One character of the regex character class 0-9 (ASCII 48..57),
as matched by the pattern used in both copies of isValidCEP. -/
def isDigitChar (c : Char) : Bool :=
  decide (48 ≤ c.toNat) && decide (c.toNat ≤ 57)

/-- Automaton of the anchored Go regular expression matching exactly n
digit characters and nothing else; both services apply it with n = 8. -/
def matchDigitsExactly : Nat → List Char → Bool
  | 0, [] => true
  | 0, _ :: _ => false
  | _ + 1, [] => false
  | n + 1, c :: cs => isDigitChar c && matchDigitsExactly n cs

namespace ServiceA

/-- service-a isValidCEP: regexp.MatchString on the 8-digit pattern. -/
def isValidCEP (cep : String) : Bool :=
  matchDigitsExactly 8 cep.data

end ServiceA

namespace ServiceB

/-- service-b isValidCEP: regexp.MatchString on the 8-digit pattern
(the validator is duplicated verbatim between the two services). -/
def isValidCEP (cep : String) : Bool :=
  matchDigitsExactly 8 cep.data

end ServiceB

/-- Trace / network events recorded while a request is processed:
span opening, span closure, span attributes and outbound HTTP calls. -/
inductive Ev where
  | spanStart (name : String)
  | spanEnd (name : String)
  | setAttr (key value : String)
  | httpGet (url : String)
deriving DecidableEq

/-- Names of the spans opened in an event log. -/
def spanStartsOf (evs : List Ev) : List String :=
  evs.filterMap (fun e =>
    match e with
    | .spanStart n => some n
    | _ => none)

/-- Names of the spans closed in an event log. -/
def spanEndsOf (evs : List Ev) : List String :=
  evs.filterMap (fun e =>
    match e with
    | .spanEnd n => some n
    | _ => none)

/-- URLs of the outbound HTTP calls attempted in an event log. -/
def httpCallsOf (evs : List Ev) : List String :=
  evs.filterMap (fun e =>
    match e with
    | .httpGet u => some u
    | _ => none)

namespace ServiceB

/-- Go struct ViaCEPResponse: localidade and erro, both JSON strings. -/
structure ViaCEPResponse where
  Localidade : String
  Erro : String
deriving DecidableEq

/-- Go struct WeatherAPIResponse: the nested field Current.TempC. -/
structure WeatherAPIResponse where
  CurrentTempC : ℚ
deriving DecidableEq

/-- Go struct FinalResponse with JSON keys city, temp_C, temp_F, temp_K. -/
structure FinalResponse where
  City : String
  TempC : ℚ
  TempF : ℚ
  TempK : ℚ
deriving DecidableEq

/-- Go encoding/json assignment of object members into ViaCEPResponse:
members are processed in order, keys matched ASCII-case-insensitively,
a JSON null leaves the field untouched, and a member of the wrong type
aborts decoding with an error. -/
def assignViaCEP : List (String × Json) → ViaCEPResponse →
    Except String ViaCEPResponse
  | [], acc => .ok acc
  | (k, v) :: rest, acc =>
    if foldLower k = "localidade" then
      match v with
      | .str s => assignViaCEP rest { acc with Localidade := s }
      | .null => assignViaCEP rest acc
      | _ => .error "json: cannot unmarshal value into field localidade of type string"
    else if foldLower k = "erro" then
      match v with
      | .str s => assignViaCEP rest { acc with Erro := s }
      | .null => assignViaCEP rest acc
      | _ => .error "json: cannot unmarshal value into field erro of type string"
    else assignViaCEP rest acc

/-- json.Unmarshal of a ViaCEP body into ViaCEPResponse: null is a no-op
on the zero value, an object is decoded member by member, and any other
top-level value is a type error. -/
def decodeViaCEP : Json → Except String ViaCEPResponse
  | .null => .ok { Localidade := "", Erro := "" }
  | .obj fields => assignViaCEP fields { Localidade := "", Erro := "" }
  | _ => .error "json: cannot unmarshal value into Go value of type main.ViaCEPResponse"

/-- Go encoding/json assignment of the members of the nested current
object: only temp_c is read, as a JSON number into float64. -/
def assignCurrent : List (String × Json) → ℚ → Except String ℚ
  | [], acc => .ok acc
  | (k, v) :: rest, acc =>
    if foldLower k = "temp_c" then
      match v with
      | .num q => assignCurrent rest q
      | .null => assignCurrent rest acc
      | _ => .error "json: cannot unmarshal value into field temp_c of type float64"
    else assignCurrent rest acc

/-- Go encoding/json assignment of object members into
WeatherAPIResponse: only the current member is read, itself an object. -/
def assignWeather : List (String × Json) → ℚ → Except String ℚ
  | [], acc => .ok acc
  | (k, v) :: rest, acc =>
    if foldLower k = "current" then
      match v with
      | .obj fs =>
        match assignCurrent fs acc with
        | .ok q => assignWeather rest q
        | .error m => .error m
      | .null => assignWeather rest acc
      | _ => .error "json: cannot unmarshal value into field current"
    else assignWeather rest acc

/-- json.Unmarshal of a WeatherAPI body into WeatherAPIResponse. -/
def decodeWeather : Json → Except String WeatherAPIResponse
  | .null => .ok { CurrentTempC := 0 }
  | .obj fields =>
    match assignWeather fields 0 with
    | .ok q => .ok { CurrentTempC := q }
    | .error m => .error m
  | _ => .error "json: cannot unmarshal value into Go value of type main.WeatherAPIResponse"

/-- Environment oracle for one outbound HTTP GET issued by an adapter:
the request may fail to build, the call may fail in transport, the body
read may fail, the body may not be valid JSON, or it parses to a JSON
value.  Error constructors carry the error text the Go error would
render, which is what the code inspects. -/
inductive HttpResult where
  | reqError (msg : String)
  | doError (msg : String)
  | readError (msg : String)
  | badJson (msg : String)
  | jsonBody (j : Json)

/-- URL of the ViaCEP lookup, as interpolated by fetchLocation. -/
def viaCEPurl (cep : String) : String :=
  "https://viacep.com.br/ws/" ++ cep ++ "/json/"

/-- Body of fetchLocation, between span start and the deferred span end:
builds the request, performs the GET, reads and decodes the body, and
turns the response whose erro field equals the string true into the
distinguished error whose text is the literal can-not-find-zipcode. -/
def fetchLocationBody (o : HttpResult) (cep : String) :
    Except String ViaCEPResponse × List Ev :=
  let url := viaCEPurl cep
  match o with
  | .reqError m => (.error m, [])
  | .doError m => (.error m, [.httpGet url])
  | .readError m => (.error m, [.httpGet url])
  | .badJson m => (.error m, [.httpGet url])
  | .jsonBody j =>
    match decodeViaCEP j with
    | .error m => (.error m, [.httpGet url])
    | .ok v =>
      if v.Erro = "true" then
        (.error "can not find zipcode", [.httpGet url])
      else
        (.ok v, [.httpGet url])

/-- fetchLocation: opens the span fetchLocation-viacep, runs the body,
and the deferred span.End fires on every return path. -/
def fetchLocation (o : HttpResult) (cep : String) :
    Except String ViaCEPResponse × List Ev :=
  let r := fetchLocationBody o cep
  (r.1, Ev.spanStart "fetchLocation-viacep" ::
    (r.2 ++ [Ev.spanEnd "fetchLocation-viacep"]))

/-- Hexadecimal digit characters used by percent-encoding. -/
def hexOf (n : Nat) : Char :=
  (['0', '1', '2', '3', '4', '5', '6', '7', '8', '9',
    'A', 'B', 'C', 'D', 'E', 'F']).getD n '0'

/-- Bytes Go url.QueryEscape leaves unescaped: ASCII alphanumerics and
the four marks minus, underscore, dot, tilde. -/
def isUnescapedQueryByte (n : Nat) : Bool :=
  (decide (48 ≤ n) && decide (n ≤ 57)) ||
  (decide (65 ≤ n) && decide (n ≤ 90)) ||
  (decide (97 ≤ n) && decide (n ≤ 122)) ||
  decide (n = 45) || decide (n = 95) || decide (n = 46) || decide (n = 126)

/-- Encoding of one UTF-8 byte under Go url.QueryEscape: kept verbatim,
space becomes plus, anything else becomes a percent escape. -/
def escapeQueryByte (n : Nat) : String :=
  if isUnescapedQueryByte n then String.mk [Char.ofNat n]
  else if n = 32 then "+"
  else String.mk ['%', hexOf (n / 16), hexOf (n % 16)]

/-- Go url.QueryEscape over the UTF-8 bytes of the locality name. -/
def queryEscape (s : String) : String :=
  String.join (s.toUTF8.toList.map (fun b => escapeQueryByte b.toNat))

/-- URL of the WeatherAPI lookup, as interpolated by fetchWeather. -/
def weatherURL (apiKey city : String) : String :=
  "http://api.weatherapi.com/v1/current.json?key=" ++ apiKey ++
    "&q=" ++ queryEscape city ++ "&aqi=no"

/-- Body of fetchWeather, between span start and the deferred span end:
a missing WEATHER_API_KEY is reported before any request is built; read
and decode errors are wrapped with the Portuguese prefixes of the
source. -/
def fetchWeatherBody (apiKey : String) (o : HttpResult) (city : String) :
    Except String WeatherAPIResponse × List Ev :=
  if apiKey = "" then
    (.error "WEATHER_API_KEY não definida", [])
  else
    let url := weatherURL apiKey city
    match o with
    | .reqError m => (.error m, [])
    | .doError m => (.error m, [.httpGet url])
    | .readError m =>
      (.error ("erro ao ler resposta da WeatherAPI: " ++ m), [.httpGet url])
    | .badJson m =>
      (.error ("erro ao decodificar JSON da WeatherAPI: " ++ m), [.httpGet url])
    | .jsonBody j =>
      match decodeWeather j with
      | .error m =>
        (.error ("erro ao decodificar JSON da WeatherAPI: " ++ m), [.httpGet url])
      | .ok wr => (.ok wr, [.httpGet url])

/-- fetchWeather: opens the span fetchWeather-weatherapi, runs the body,
and the deferred span.End fires on every return path. -/
def fetchWeather (apiKey : String) (o : HttpResult) (city : String) :
    Except String WeatherAPIResponse × List Ev :=
  let r := fetchWeatherBody apiKey o city
  (r.1, Ev.spanStart "fetchWeather-weatherapi" ::
    (r.2 ++ [Ev.spanEnd "fetchWeather-weatherapi"]))

/-- One complete chunk written to the response writer of service-b:
either the single-line text that http.Error writes (its trailing newline
elided uniformly), or the JSON payload produced by encoding a
FinalResponse (Go encoding/json renders equal values to equal bytes, so
the payload is kept structured). -/
inductive Chunk where
  | errText (s : String)
  | jsonBody (fr : FinalResponse)
deriving DecidableEq

/-- Operations performed on the response writer, in order.  A second
writeHeader does not change the committed status (net/http ignores it),
but recording it keeps the handler's write sequence observable. -/
inductive WOp where
  | writeHeader (status : Nat)
  | write (c : Chunk)
deriving DecidableEq

/-- One run of the service-b handler: the writer operations it performed
and the trace/network events it produced. -/
structure BRun where
  ops : List WOp
  events : List Ev
deriving DecidableEq

/-- Writer operations of Go http.Error: status line then the error text. -/
def httpError (msg : String) (status : Nat) : List WOp :=
  [.writeHeader status, .write (.errText msg)]

/-- Statuses passed to writeHeader during a run, in order. -/
def statusWrites (ops : List WOp) : List Nat :=
  ops.filterMap (fun op =>
    match op with
    | .writeHeader st => some st
    | _ => none)

/-- Whether a writer sequence is exactly one status line followed by one
complete body chunk. -/
def singleResponse : List WOp → Bool
  | [.writeHeader _, .write _] => true
  | _ => false

/-- GetWeatherHandler of service-b.  Arguments: the cep path segment,
the WEATHER_API_KEY value, one HTTP oracle per adapter call, and the
result of json.NewEncoder(w).Encode on the success path (none when the
encode succeeds, some error text when it fails).  Follows the source:
validate, record the cep attribute on the inbound span, resolve the
location (classifying the error whose text is exactly the
can-not-find-zipcode literal as 404), fetch the weather, convert the
temperature with F = C*1.8+32 and K = C+273, then write 200 and encode;
a failing encode is answered with a further http.Error 500 even though
the 200 status line is already out. -/
def GetWeatherHandler (cep apiKey : String) (locO wthO : HttpResult)
    (encodeErr : Option String) : BRun :=
  if isValidCEP cep = false then
    { ops := httpError "invalid zipcode" 422, events := [] }
  else
    let ev0 := [Ev.setAttr "cep" cep]
    let locR := fetchLocation locO cep
    match locR.1 with
    | .error m =>
      if m = "can not find zipcode" then
        { ops := httpError "can not find zipcode" 404, events := ev0 ++ locR.2 }
      else
        { ops := httpError m 500, events := ev0 ++ locR.2 }
    | .ok location =>
      let wR := fetchWeather apiKey wthO location.Localidade
      match wR.1 with
      | .error m =>
        { ops := httpError m 500, events := ev0 ++ locR.2 ++ wR.2 }
      | .ok weather =>
        let tempC := weather.CurrentTempC
        let tempF := tempC * 1.8 + 32
        let tempK := tempC + 273
        let response : FinalResponse :=
          { City := location.Localidade, TempC := tempC,
            TempF := tempF, TempK := tempK }
        match encodeErr with
        | none =>
          { ops := [.writeHeader 200, .write (.jsonBody response)],
            events := ev0 ++ locR.2 ++ wR.2 }
        | some em =>
          { ops := [.writeHeader 200, .write (.jsonBody response)] ++
              httpError em 500,
            events := ev0 ++ locR.2 ++ wR.2 }

end ServiceB

namespace ServiceA

/-- Go struct CEPRequest: the cep member of the request body. -/
structure CEPRequest where
  CEP : String
deriving DecidableEq

/-- Go encoding/json assignment of object members into CEPRequest:
members in order, keys matched ASCII-case-insensitively, null a no-op,
wrong member type an error. -/
def assignCEPRequest : List (String × Json) → CEPRequest →
    Except String CEPRequest
  | [], acc => .ok acc
  | (k, v) :: rest, acc =>
    if foldLower k = "cep" then
      match v with
      | .str s => assignCEPRequest rest { CEP := s }
      | .null => assignCEPRequest rest acc
      | _ => .error "json: cannot unmarshal value into field cep of type string"
    else assignCEPRequest rest acc

/-- json.NewDecoder(r.Body).Decode into CEPRequest: null is a no-op on
the zero value, an object is decoded member by member, any other
top-level JSON value is a type error. -/
def decodeCEPRequest : Json → Except String CEPRequest
  | .null => .ok { CEP := "" }
  | .obj fields => assignCEPRequest fields { CEP := "" }
  | _ => .error "json: cannot unmarshal value into Go value of type main.CEPRequest"

/-- Outcome of the Gateway's forward call to service-b: the request may
fail to build, the call may fail in transport, or a response arrives
with a status, header pairs and a body. -/
inductive UpstreamOutcome where
  | reqError (msg : String)
  | doError (msg : String)
  | resp (status : Nat) (headers : List (String × String)) (body : String)

/-- Operations performed on the Gateway's response writer, in order.
Gateway bodies are relayed raw, so chunks are plain strings (the
trailing newline of http.Error is elided uniformly). -/
inductive AOp where
  | writeHeader (status : Nat)
  | write (s : String)
deriving DecidableEq

/-- One run of the Gateway handler: the response header pairs it added,
the writer operations it performed, and the URLs of the outbound calls
it issued. -/
structure GatewayRun where
  headers : List (String × String)
  ops : List AOp
  calls : List String
deriving DecidableEq

/-- Writer operations of Go http.Error at the Gateway. -/
def httpError (msg : String) (status : Nat) : List AOp :=
  [.writeHeader status, .write msg]

/-- Whether a Gateway writer sequence is exactly one status line
followed by one complete body chunk. -/
def singleResponse : List AOp → Bool
  | [.writeHeader _, .write _] => true
  | _ => false

/-- URL of the forward call to service-b with the cep interpolated. -/
def serviceBURL (cep : String) : String :=
  "http://service-b:8081/weather/" ++ cep

/-- GetWeatherViaServiceB of service-a.  Arguments: the parse of the
request body (none when it is not valid JSON), and the outcome oracle
of the forward call.  Follows the source: decode the body, validate the
cep, build and execute the forward request, then add every upstream
header pair, write the upstream status and copy the upstream body. -/
def GetWeatherViaServiceB (body : Option Json) (o : UpstreamOutcome) :
    GatewayRun :=
  match body with
  | none =>
    { headers := [], ops := httpError "invalid request body" 400, calls := [] }
  | some j =>
    match decodeCEPRequest j with
    | .error _ =>
      { headers := [], ops := httpError "invalid request body" 400, calls := [] }
    | .ok req =>
      if isValidCEP req.CEP = false then
        { headers := [], ops := httpError "invalid zipcode" 422, calls := [] }
      else
        match o with
        | .reqError _ =>
          { headers := [],
            ops := httpError "erro ao criar requisição para o serviço B" 500,
            calls := [] }
        | .doError _ =>
          { headers := [],
            ops := httpError "erro ao chamar o serviço B" 500,
            calls := [serviceBURL req.CEP] }
        | .resp st hs bd =>
          { headers := hs,
            ops := [.writeHeader st, .write bd],
            calls := [serviceBURL req.CEP] }

end ServiceA

theorem matchDigitsExactly_iff (n : Nat) (l : List Char) :
    matchDigitsExactly n l = true ↔
      l.length = n ∧ ∀ c ∈ l, isDigitChar c = true := by
  induction n generalizing l with
  | zero =>
    cases l with
    | nil => simp [matchDigitsExactly]
    | cons c cs => simp [matchDigitsExactly]
  | succ k ih =>
    cases l with
    | nil => simp [matchDigitsExactly]
    | cons c cs =>
      simp only [matchDigitsExactly, Bool.and_eq_true, ih, List.length_cons,
        Nat.succ_inj, List.mem_cons]
      constructor
      · rintro ⟨hc, hlen, hall⟩
        exact ⟨hlen, fun x hx => hx.elim (fun he => he ▸ hc) (hall x)⟩
      · rintro ⟨hlen, hall⟩
        exact ⟨hall c (Or.inl rfl), hlen, fun x hx => hall x (Or.inr hx)⟩

namespace ServiceB

theorem GetWeatherHandler_invalid (cep apiKey : String)
    (locO wthO : HttpResult) (eo : Option String)
    (hbad : isValidCEP cep = false) :
    GetWeatherHandler cep apiKey locO wthO eo =
      { ops := httpError "invalid zipcode" 422, events := [] } := by
  simp [GetWeatherHandler, hbad]

theorem GetWeatherHandler_notFound (cep apiKey : String)
    (locO wthO : HttpResult) (eo : Option String)
    (hcep : isValidCEP cep = true)
    (hl : (fetchLocation locO cep).1 = .error "can not find zipcode") :
    GetWeatherHandler cep apiKey locO wthO eo =
      { ops := httpError "can not find zipcode" 404,
        events := Ev.setAttr "cep" cep :: (fetchLocation locO cep).2 } := by
  simp [GetWeatherHandler, hcep, hl]

theorem GetWeatherHandler_locError (cep apiKey m : String)
    (locO wthO : HttpResult) (eo : Option String)
    (hcep : isValidCEP cep = true)
    (hl : (fetchLocation locO cep).1 = .error m)
    (hm : m ≠ "can not find zipcode") :
    GetWeatherHandler cep apiKey locO wthO eo =
      { ops := httpError m 500,
        events := Ev.setAttr "cep" cep :: (fetchLocation locO cep).2 } := by
  simp [GetWeatherHandler, hcep, hl, hm]

theorem GetWeatherHandler_wthError (cep apiKey m : String)
    (locO wthO : HttpResult) (eo : Option String)
    (loc : ViaCEPResponse)
    (hcep : isValidCEP cep = true)
    (hl : (fetchLocation locO cep).1 = .ok loc)
    (hw : (fetchWeather apiKey wthO loc.Localidade).1 = .error m) :
    GetWeatherHandler cep apiKey locO wthO eo =
      { ops := httpError m 500,
        events := Ev.setAttr "cep" cep :: ((fetchLocation locO cep).2 ++
          (fetchWeather apiKey wthO loc.Localidade).2) } := by
  simp [GetWeatherHandler, hcep, hl, hw]

theorem GetWeatherHandler_success (cep apiKey : String)
    (locO wthO : HttpResult) (eo : Option String)
    (loc : ViaCEPResponse) (wr : WeatherAPIResponse)
    (hcep : isValidCEP cep = true)
    (hl : (fetchLocation locO cep).1 = .ok loc)
    (hw : (fetchWeather apiKey wthO loc.Localidade).1 = .ok wr) :
    GetWeatherHandler cep apiKey locO wthO eo =
      { ops := [.writeHeader 200, .write (.jsonBody
          { City := loc.Localidade, TempC := wr.CurrentTempC,
            TempF := wr.CurrentTempC * 1.8 + 32,
            TempK := wr.CurrentTempC + 273 })] ++
          (match eo with
           | none => []
           | some em => httpError em 500),
        events := Ev.setAttr "cep" cep :: ((fetchLocation locO cep).2 ++
          (fetchWeather apiKey wthO loc.Localidade).2) } := by
  cases eo with
  | none => simp [GetWeatherHandler, hcep, hl, hw]
  | some em => simp [GetWeatherHandler, hcep, hl, hw]

end ServiceB

/-- C2: for every string s, isValidCEP s is true exactly when s consists
of eight ASCII digit characters (codes 48..57) and nothing else, and the
Gateway's and the Orchestrator's copies of the validator compute the
same predicate. -/
theorem c2_isValidCEP_eight_digits (s : String) :
    (ServiceB.isValidCEP s = true ↔
      s.length = 8 ∧ ∀ c ∈ s.data, 48 ≤ c.toNat ∧ c.toNat ≤ 57) ∧
    ServiceA.isValidCEP s = ServiceB.isValidCEP s := by
  constructor
  · rw [ServiceB.isValidCEP, matchDigitsExactly_iff]
    have hlen : s.length = s.data.length := rfl
    constructor
    · rintro ⟨h8, hall⟩
      refine ⟨by rw [hlen, h8], fun c hc => ?_⟩
      have := hall c hc
      simpa [isDigitChar] using this
    · rintro ⟨h8, hall⟩
      refine ⟨by rw [← h8, hlen], fun c hc => ?_⟩
      simpa [isDigitChar] using hall c hc
  · rfl

/-- C9: the Orchestrator handler is deterministic in its inputs: given
equal postal codes and equal adapter outcomes (same locality payload,
same temperature payload, same encode outcome), two runs produce equal
writer sequences, and hence byte-identical FinalResponse bodies since
Go encoding/json renders equal values to equal bytes. -/
theorem c9_handler_deterministic (cep₁ cep₂ apiKey₁ apiKey₂ : String)
    (locO₁ locO₂ wthO₁ wthO₂ : ServiceB.HttpResult) (eo₁ eo₂ : Option String)
    (h₁ : cep₁ = cep₂) (h₂ : apiKey₁ = apiKey₂) (h₃ : locO₁ = locO₂)
    (h₄ : wthO₁ = wthO₂) (h₅ : eo₁ = eo₂) :
    ServiceB.GetWeatherHandler cep₁ apiKey₁ locO₁ wthO₁ eo₁ =
      ServiceB.GetWeatherHandler cep₂ apiKey₂ locO₂ wthO₂ eo₂ := by
  rw [h₁, h₂, h₃, h₄, h₅]

/-- Witness for C9: the determinism theorem applied at a concrete input. -/
theorem c9_handler_deterministic_witness :
    ServiceB.GetWeatherHandler "01001000" "k"
        (.jsonBody (Json.obj [("localidade", Json.str "Sao Paulo")]))
        (.jsonBody (Json.obj [("current", Json.obj [("temp_c", Json.num 20)])]))
        none =
      ServiceB.GetWeatherHandler "01001000" "k"
        (.jsonBody (Json.obj [("localidade", Json.str "Sao Paulo")]))
        (.jsonBody (Json.obj [("current", Json.obj [("temp_c", Json.num 20)])]))
        none :=
  c9_handler_deterministic "01001000" "01001000" "k" "k"
    (.jsonBody (Json.obj [("localidade", Json.str "Sao Paulo")]))
    (.jsonBody (Json.obj [("localidade", Json.str "Sao Paulo")]))
    (.jsonBody (Json.obj [("current", Json.obj [("temp_c", Json.num 20)])]))
    (.jsonBody (Json.obj [("current", Json.obj [("temp_c", Json.num 20)])]))
    none none rfl rfl rfl rfl rfl

/-- C5: whenever the forward call to the Orchestrator succeeds, the
Gateway answers with the upstream status, every upstream header pair and
the upstream body verbatim, and issues exactly the one forward call:
nothing in the relayed response is synthesized by the Gateway. -/
theorem c5_gateway_relay_verbatim (j : Json) (req : ServiceA.CEPRequest)
    (st : Nat) (hs : List (String × String)) (bd : String)
    (hdec : ServiceA.decodeCEPRequest j = .ok req)
    (hok : ServiceA.isValidCEP req.CEP = true) :
    ServiceA.GetWeatherViaServiceB (some j) (.resp st hs bd) =
      { headers := hs,
        ops := [.writeHeader st, .write bd],
        calls := [ServiceA.serviceBURL req.CEP] } := by
  simp [ServiceA.GetWeatherViaServiceB, hdec, hok]

/-- Witness for C5 at a concrete upstream response. -/
theorem c5_gateway_relay_verbatim_witness :
    ServiceA.GetWeatherViaServiceB
        (some (Json.obj [("cep", Json.str "01001000")]))
        (.resp 404 [("Content-Type", "text/plain; charset=utf-8")]
          "can not find zipcode") =
      { headers := [("Content-Type", "text/plain; charset=utf-8")],
        ops := [.writeHeader 404, .write "can not find zipcode"],
        calls := [ServiceA.serviceBURL "01001000"] } :=
  c5_gateway_relay_verbatim (Json.obj [("cep", Json.str "01001000")])
    { CEP := "01001000" } 404
    [("Content-Type", "text/plain; charset=utf-8")]
    "can not find zipcode" rfl (by decide)

/-- C4: a postal code that fails the eight-digit validation is answered
422 with body invalid zipcode by both handlers, the Gateway issuing no
outbound call and the Orchestrator running neither adapter. -/
theorem c4_invalid_cep_422 (j : Json) (req : ServiceA.CEPRequest)
    (o : ServiceA.UpstreamOutcome) (cep apiKey : String)
    (locO wthO : ServiceB.HttpResult) (eo : Option String)
    (hdec : ServiceA.decodeCEPRequest j = .ok req)
    (hbadA : ServiceA.isValidCEP req.CEP = false)
    (hbadB : ServiceB.isValidCEP cep = false) :
    ServiceA.GetWeatherViaServiceB (some j) o =
      { headers := [],
        ops := [.writeHeader 422, .write "invalid zipcode"],
        calls := [] } ∧
    ServiceB.GetWeatherHandler cep apiKey locO wthO eo =
      { ops := [.writeHeader 422, .write (.errText "invalid zipcode")],
        events := [] } := by
  constructor
  · simp [ServiceA.GetWeatherViaServiceB, hdec, hbadA, ServiceA.httpError]
  · simpa [ServiceB.httpError] using
      ServiceB.GetWeatherHandler_invalid cep apiKey locO wthO eo hbadB

/-- Witness for C4 at the cep 12345 of the spec scenario. -/
theorem c4_invalid_cep_422_witness :
    ServiceA.GetWeatherViaServiceB
        (some (Json.obj [("cep", Json.str "12345")])) (.doError "e") =
      { headers := [],
        ops := [.writeHeader 422, .write "invalid zipcode"],
        calls := [] } ∧
    ServiceB.GetWeatherHandler "12345" "k" (.doError "e") (.doError "e") none =
      { ops := [.writeHeader 422, .write (.errText "invalid zipcode")],
        events := [] } :=
  c4_invalid_cep_422 (Json.obj [("cep", Json.str "12345")])
    { CEP := "12345" } (.doError "e") "12345" "k"
    (.doError "e") (.doError "e") none rfl (by decide) (by decide)

theorem assignCEPRequest_no_match (fields : List (String × Json))
    (acc : ServiceA.CEPRequest)
    (h : ∀ p ∈ fields, foldLower p.1 ≠ "cep") :
    ServiceA.assignCEPRequest fields acc = .ok acc := by
  induction fields with
  | nil => rfl
  | cons p rest ih =>
    obtain ⟨k, v⟩ := p
    have hk : foldLower k ≠ "cep" := h (k, v) (List.mem_cons_self _ _)
    simp only [ServiceA.assignCEPRequest, if_neg hk]
    exact ih (fun q hq => h q (List.mem_cons_of_mem _ hq))

/-- C10 counterexample: the empty JSON array is a syntactically
well-formed JSON body with no cep member, yet the Gateway rejects it as
malformed with 400, not with 422, because json decoding of a non-object
into CEPRequest fails. -/
theorem c10_nonobject_body_400 :
    ServiceA.decodeCEPRequest (Json.arr []) =
      .error "json: cannot unmarshal value into Go value of type main.CEPRequest" ∧
    ServiceA.GetWeatherViaServiceB (some (Json.arr [])) (.doError "e") =
      { headers := [],
        ops := [.writeHeader 400, .write "invalid request body"],
        calls := [] } :=
  ⟨rfl, rfl⟩

/-- C10 (amended): for every well-formed JSON object body with no member
whose name case-folds to cep — and more generally for every body that
decodes to an empty postal code — the Gateway does not answer 400: the
decode succeeds with the empty postal code and the request is rejected
by validation with 422 and body invalid zipcode, before any outbound
call. -/
theorem c10_missing_cep_422 (fields : List (String × Json)) (j : Json)
    (o₁ o₂ : ServiceA.UpstreamOutcome)
    (hnone : ∀ p ∈ fields, foldLower p.1 ≠ "cep")
    (hempty : ServiceA.decodeCEPRequest j = .ok { CEP := "" }) :
    ServiceA.decodeCEPRequest (Json.obj fields) = .ok { CEP := "" } ∧
    ServiceA.GetWeatherViaServiceB (some (Json.obj fields)) o₁ =
      { headers := [],
        ops := [.writeHeader 422, .write "invalid zipcode"],
        calls := [] } ∧
    ServiceA.GetWeatherViaServiceB (some j) o₂ =
      { headers := [],
        ops := [.writeHeader 422, .write "invalid zipcode"],
        calls := [] } := by
  have hobj : ServiceA.decodeCEPRequest (Json.obj fields) = .ok { CEP := "" } :=
    assignCEPRequest_no_match fields { CEP := "" } hnone
  refine ⟨hobj, ?_, ?_⟩
  · simp [ServiceA.GetWeatherViaServiceB, hobj, ServiceA.httpError,
      ServiceA.isValidCEP, matchDigitsExactly]
  · simp [ServiceA.GetWeatherViaServiceB, hempty, ServiceA.httpError,
      ServiceA.isValidCEP, matchDigitsExactly]

/-- Witness for C10 at a body with an unrelated member and at a body
whose cep member is the empty string. -/
theorem c10_missing_cep_422_witness :
    ServiceA.decodeCEPRequest (Json.obj [("city", Json.str "x")]) =
      .ok { CEP := "" } ∧
    ServiceA.GetWeatherViaServiceB
        (some (Json.obj [("city", Json.str "x")])) (.doError "e") =
      { headers := [],
        ops := [.writeHeader 422, .write "invalid zipcode"],
        calls := [] } ∧
    ServiceA.GetWeatherViaServiceB
        (some (Json.obj [("cep", Json.str "")])) (.doError "e") =
      { headers := [],
        ops := [.writeHeader 422, .write "invalid zipcode"],
        calls := [] } :=
  c10_missing_cep_422 [("city", Json.str "x")] (Json.obj [("cep", Json.str "")])
    (.doError "e") (.doError "e") (by decide) rfl

/-- C1 counterexample: a ViaCEP body that decodes with the error flag
set to the non-empty string 1 — which per the claim signals not-found —
is not classified as not-found by fetchLocation (the code compares the
flag with the exact string true): the lookup succeeds and the handler
answers 200, not 404. -/
theorem c1_nonempty_flag_not_notfound :
    ServiceB.decodeViaCEP
        (Json.obj [("localidade", Json.str "X"), ("erro", Json.str "1")]) =
      .ok { Localidade := "X", Erro := "1" } ∧
    ("1" : String) ≠ "" ∧
    (ServiceB.fetchLocation
        (.jsonBody (Json.obj [("localidade", Json.str "X"), ("erro", Json.str "1")]))
        "01001000").1 = .ok { Localidade := "X", Erro := "1" } ∧
    ServiceB.statusWrites
      (ServiceB.GetWeatherHandler "01001000" "key"
        (.jsonBody (Json.obj [("localidade", Json.str "X"), ("erro", Json.str "1")]))
        (.jsonBody (Json.obj [("current", Json.obj [("temp_c", Json.num 25)])]))
        none).ops = [200] :=
  ⟨rfl, by decide, rfl, by decide⟩

/-- C1 (amended): a decoded ViaCEP response is classified as not-found
exactly when its error flag equals the string true, in which case
fetchLocation returns the distinguished error and the handler answers
404 with body can not find zipcode; when the flag differs from true the
lookup succeeds with the decoded response; a transport failure, and
likewise a decode failure, yields a plain error that the handler maps
to 500 whenever its text is not the can-not-find-zipcode literal. -/
theorem c1_notfound_classification (cep apiKey m : String) (j : Json)
    (v : ServiceB.ViaCEPResponse) (wthO : ServiceB.HttpResult)
    (eo : Option String)
    (hcep : ServiceB.isValidCEP cep = true) :
    (ServiceB.decodeViaCEP j = .ok v → v.Erro = "true" →
      (ServiceB.fetchLocation (.jsonBody j) cep).1 =
        .error "can not find zipcode" ∧
      (ServiceB.GetWeatherHandler cep apiKey (.jsonBody j) wthO eo).ops =
        [.writeHeader 404, .write (.errText "can not find zipcode")]) ∧
    (ServiceB.decodeViaCEP j = .ok v → v.Erro ≠ "true" →
      (ServiceB.fetchLocation (.jsonBody j) cep).1 = .ok v) ∧
    (m ≠ "can not find zipcode" →
      (ServiceB.fetchLocation (.doError m) cep).1 = .error m ∧
      (ServiceB.GetWeatherHandler cep apiKey (.doError m) wthO eo).ops =
        [.writeHeader 500, .write (.errText m)]) ∧
    (ServiceB.decodeViaCEP j = .error m → m ≠ "can not find zipcode" →
      (ServiceB.GetWeatherHandler cep apiKey (.jsonBody j) wthO eo).ops =
        [.writeHeader 500, .write (.errText m)]) := by
  refine ⟨?_, ?_, ?_, ?_⟩
  · intro hdec herr
    have hl : (ServiceB.fetchLocation (.jsonBody j) cep).1 =
        .error "can not find zipcode" := by
      simp [ServiceB.fetchLocation, ServiceB.fetchLocationBody, hdec, herr]
    refine ⟨hl, ?_⟩
    rw [ServiceB.GetWeatherHandler_notFound cep apiKey (.jsonBody j) wthO eo
      hcep hl]
    rfl
  · intro hdec herr
    simp [ServiceB.fetchLocation, ServiceB.fetchLocationBody, hdec, herr]
  · intro hm
    have hl : (ServiceB.fetchLocation (.doError m) cep).1 = .error m := by
      simp [ServiceB.fetchLocation, ServiceB.fetchLocationBody]
    refine ⟨hl, ?_⟩
    rw [ServiceB.GetWeatherHandler_locError cep apiKey m (.doError m) wthO eo
      hcep hl hm]
    rfl
  · intro hdec hm
    have hl : (ServiceB.fetchLocation (.jsonBody j) cep).1 = .error m := by
      simp [ServiceB.fetchLocation, ServiceB.fetchLocationBody, hdec]
    rw [ServiceB.GetWeatherHandler_locError cep apiKey m (.jsonBody j) wthO eo
      hcep hl hm]
    rfl

/-- Witness for C1: the flag equal to true from the spec scenario for
cep 99999999 gives the 404 outcome, and a concrete transport failure
gives the 500 outcome. -/
theorem c1_notfound_classification_witness :
    (ServiceB.fetchLocation
        (.jsonBody (Json.obj [("erro", Json.str "true")])) "99999999").1 =
      .error "can not find zipcode" ∧
    (ServiceB.GetWeatherHandler "99999999" "key"
        (.jsonBody (Json.obj [("erro", Json.str "true")]))
        (.doError "x") none).ops =
      [.writeHeader 404, .write (.errText "can not find zipcode")] ∧
    (ServiceB.fetchLocation (.doError "dial tcp: i/o timeout") "99999999").1 =
      .error "dial tcp: i/o timeout" ∧
    (ServiceB.GetWeatherHandler "99999999" "key"
        (.doError "dial tcp: i/o timeout") (.doError "x") none).ops =
      [.writeHeader 500, .write (.errText "dial tcp: i/o timeout")] := by
  have h := c1_notfound_classification "99999999" "key" "dial tcp: i/o timeout"
    (Json.obj [("erro", Json.str "true")]) { Localidade := "", Erro := "true" }
    (.doError "x") none (by decide)
  have h1 := h.1 rfl rfl
  have h3 := h.2.2.1 (by decide)
  exact ⟨h1.1, h1.2, h3.1, h3.2⟩

/-- C3: on every successful run the FinalResponse is computed from the
adapter outputs by temp_F = C*1.8+32 and temp_K = C+273, with city the
resolved locality; in particular a 20-degree reading yields exactly the
values 20, 68 and 293 (inputs at which the float64 arithmetic of the
source is exact, so the rational model coincides with it). -/
theorem c3_conversion_formulas (cep apiKey : String)
    (locO wthO : ServiceB.HttpResult)
    (loc : ServiceB.ViaCEPResponse) (wr : ServiceB.WeatherAPIResponse)
    (hcep : ServiceB.isValidCEP cep = true)
    (hl : (ServiceB.fetchLocation locO cep).1 = .ok loc)
    (hw : (ServiceB.fetchWeather apiKey wthO loc.Localidade).1 = .ok wr) :
    (ServiceB.GetWeatherHandler cep apiKey locO wthO none).ops =
      [.writeHeader 200, .write (.jsonBody
        { City := loc.Localidade, TempC := wr.CurrentTempC,
          TempF := wr.CurrentTempC * 1.8 + 32,
          TempK := wr.CurrentTempC + 273 })] ∧
    (wr.CurrentTempC = 20 →
      (ServiceB.GetWeatherHandler cep apiKey locO wthO none).ops =
        [.writeHeader 200, .write (.jsonBody
          { City := loc.Localidade, TempC := 20,
            TempF := 68, TempK := 293 })]) := by
  have h := ServiceB.GetWeatherHandler_success cep apiKey locO wthO none
    loc wr hcep hl hw
  rw [h]
  refine ⟨rfl, ?_⟩
  intro h20
  rw [h20]
  have e1 : (20 : ℚ) * 1.8 + 32 = 68 := by norm_num
  have e2 : (20 : ℚ) + 273 = 293 := by norm_num
  rw [e1, e2]
  rfl

/-- Witness for C3 at the 20-degree scenario of the spec. -/
theorem c3_conversion_formulas_witness :
    ServiceB.isValidCEP "01001000" = true ∧
    (ServiceB.fetchLocation
        (.jsonBody (Json.obj [("localidade", Json.str "Sao Paulo")]))
        "01001000").1 = .ok { Localidade := "Sao Paulo", Erro := "" } ∧
    (ServiceB.fetchWeather "k"
        (.jsonBody (Json.obj [("current", Json.obj [("temp_c", Json.num 20)])]))
        "Sao Paulo").1 = .ok { CurrentTempC := 20 } ∧
    (ServiceB.GetWeatherHandler "01001000" "k"
        (.jsonBody (Json.obj [("localidade", Json.str "Sao Paulo")]))
        (.jsonBody (Json.obj [("current", Json.obj [("temp_c", Json.num 20)])]))
        none).ops =
      [.writeHeader 200, .write (.jsonBody
        { City := "Sao Paulo", TempC := 20, TempF := 68, TempK := 293 })] := by
  have h := c3_conversion_formulas "01001000" "k"
    (.jsonBody (Json.obj [("localidade", Json.str "Sao Paulo")]))
    (.jsonBody (Json.obj [("current", Json.obj [("temp_c", Json.num 20)])]))
    { Localidade := "Sao Paulo", Erro := "" } { CurrentTempC := 20 }
    (by decide) rfl rfl
  exact ⟨by decide, rfl, rfl, h.2 rfl⟩

/-- C7: with WEATHER_API_KEY absent, fetchWeather fails with the
configuration error before attempting any outbound call (its span is
still opened and closed), and the Orchestrator surfaces this to an
otherwise-valid request as a 500 whose body is that error text. -/
theorem c7_missing_api_key (cep city : String)
    (locO wthO : ServiceB.HttpResult) (eo : Option String)
    (loc : ServiceB.ViaCEPResponse)
    (hcep : ServiceB.isValidCEP cep = true)
    (hl : (ServiceB.fetchLocation locO cep).1 = .ok loc) :
    (ServiceB.fetchWeather "" wthO city).1 =
      .error "WEATHER_API_KEY não definida" ∧
    httpCallsOf (ServiceB.fetchWeather "" wthO city).2 = [] ∧
    (ServiceB.GetWeatherHandler cep "" locO wthO eo).ops =
      [.writeHeader 500, .write (.errText "WEATHER_API_KEY não definida")] := by
  refine ⟨?_, ?_, ?_⟩
  · simp [ServiceB.fetchWeather, ServiceB.fetchWeatherBody]
  · simp [ServiceB.fetchWeather, ServiceB.fetchWeatherBody, httpCallsOf]
  · have hw : (ServiceB.fetchWeather "" wthO loc.Localidade).1 =
        .error "WEATHER_API_KEY não definida" := by
      simp [ServiceB.fetchWeather, ServiceB.fetchWeatherBody]
    rw [ServiceB.GetWeatherHandler_wthError cep ""
      "WEATHER_API_KEY não definida" locO wthO eo loc hcep hl hw]
    rfl

/-- Witness for C7 at a concrete valid request. -/
theorem c7_missing_api_key_witness :
    (ServiceB.fetchWeather "" (.doError "t") "X").1 =
      .error "WEATHER_API_KEY não definida" ∧
    httpCallsOf (ServiceB.fetchWeather "" (.doError "t") "X").2 = [] ∧
    (ServiceB.GetWeatherHandler "01001000" ""
        (.jsonBody (Json.obj [("localidade", Json.str "X")]))
        (.doError "t") none).ops =
      [.writeHeader 500, .write (.errText "WEATHER_API_KEY não definida")] :=
  c7_missing_api_key "01001000" "X"
    (.jsonBody (Json.obj [("localidade", Json.str "X")])) (.doError "t")
    none { Localidade := "X", Erro := "" } (by decide) rfl

theorem fetchLocationBody_events (o : ServiceB.HttpResult) (cep : String) :
    (ServiceB.fetchLocationBody o cep).2 = [] ∨
    (ServiceB.fetchLocationBody o cep).2 =
      [Ev.httpGet (ServiceB.viaCEPurl cep)] := by
  cases o with
  | reqError m => exact Or.inl rfl
  | doError m => exact Or.inr rfl
  | readError m => exact Or.inr rfl
  | badJson m => exact Or.inr rfl
  | jsonBody j =>
    cases hd : ServiceB.decodeViaCEP j with
    | error m =>
      exact Or.inr (by simp [ServiceB.fetchLocationBody, hd])
    | ok v =>
      by_cases he : v.Erro = "true"
      · exact Or.inr (by simp [ServiceB.fetchLocationBody, hd, he])
      · exact Or.inr (by simp [ServiceB.fetchLocationBody, hd, he])

theorem fetchWeatherBody_events (apiKey : String) (o : ServiceB.HttpResult)
    (city : String) :
    (ServiceB.fetchWeatherBody apiKey o city).2 = [] ∨
    (ServiceB.fetchWeatherBody apiKey o city).2 =
      [Ev.httpGet (ServiceB.weatherURL apiKey city)] := by
  by_cases hk : apiKey = ""
  · exact Or.inl (by simp [ServiceB.fetchWeatherBody, hk])
  · cases o with
    | reqError m => exact Or.inl (by simp [ServiceB.fetchWeatherBody, hk])
    | doError m => exact Or.inr (by simp [ServiceB.fetchWeatherBody, hk])
    | readError m => exact Or.inr (by simp [ServiceB.fetchWeatherBody, hk])
    | badJson m => exact Or.inr (by simp [ServiceB.fetchWeatherBody, hk])
    | jsonBody j =>
      cases hd : ServiceB.decodeWeather j with
      | error m => exact Or.inr (by simp [ServiceB.fetchWeatherBody, hk, hd])
      | ok wr => exact Or.inr (by simp [ServiceB.fetchWeatherBody, hk, hd])

theorem fetchLocation_spans (o : ServiceB.HttpResult) (cep : String) :
    spanStartsOf (ServiceB.fetchLocation o cep).2 = ["fetchLocation-viacep"] ∧
    spanEndsOf (ServiceB.fetchLocation o cep).2 = ["fetchLocation-viacep"] := by
  rcases fetchLocationBody_events o cep with h | h <;>
    simp [ServiceB.fetchLocation, h, spanStartsOf, spanEndsOf]

theorem fetchWeather_spans (apiKey : String) (o : ServiceB.HttpResult)
    (city : String) :
    spanStartsOf (ServiceB.fetchWeather apiKey o city).2 =
      ["fetchWeather-weatherapi"] ∧
    spanEndsOf (ServiceB.fetchWeather apiKey o city).2 =
      ["fetchWeather-weatherapi"] := by
  rcases fetchWeatherBody_events apiKey o city with h | h <;>
    simp [ServiceB.fetchWeather, h, spanStartsOf, spanEndsOf]

theorem spanStartsOf_append (l₁ l₂ : List Ev) :
    spanStartsOf (l₁ ++ l₂) = spanStartsOf l₁ ++ spanStartsOf l₂ := by
  simp [spanStartsOf]

theorem spanEndsOf_append (l₁ l₂ : List Ev) :
    spanEndsOf (l₁ ++ l₂) = spanEndsOf l₁ ++ spanEndsOf l₂ := by
  simp [spanEndsOf]

/-- C6: the span opened by fetchLocation and the span opened by
fetchWeather are each closed exactly once on every one of their return
paths (every oracle outcome: request-build failure, transport failure,
read failure, decode failure, not-found, missing credential, success),
and over every full handler run the sequence of opened span names equals
the sequence of closed span names. -/
theorem c6_spans_closed (cep apiKey city : String)
    (locO wthO : ServiceB.HttpResult) (eo : Option String) :
    spanStartsOf (ServiceB.fetchLocation locO cep).2 =
      ["fetchLocation-viacep"] ∧
    spanEndsOf (ServiceB.fetchLocation locO cep).2 =
      ["fetchLocation-viacep"] ∧
    spanStartsOf (ServiceB.fetchWeather apiKey wthO city).2 =
      ["fetchWeather-weatherapi"] ∧
    spanEndsOf (ServiceB.fetchWeather apiKey wthO city).2 =
      ["fetchWeather-weatherapi"] ∧
    spanStartsOf (ServiceB.GetWeatherHandler cep apiKey locO wthO eo).events =
      spanEndsOf (ServiceB.GetWeatherHandler cep apiKey locO wthO eo).events := by
  refine ⟨(fetchLocation_spans locO cep).1, (fetchLocation_spans locO cep).2,
    (fetchWeather_spans apiKey wthO city).1,
    (fetchWeather_spans apiKey wthO city).2, ?_⟩
  by_cases hv : ServiceB.isValidCEP cep = false
  · rw [ServiceB.GetWeatherHandler_invalid cep apiKey locO wthO eo hv]
    rfl
  · have hv2 : ServiceB.isValidCEP cep = true := by
      cases h : ServiceB.isValidCEP cep
      · exact absurd h hv
      · rfl
    cases hl : (ServiceB.fetchLocation locO cep).1 with
    | error m =>
      by_cases hm : m = "can not find zipcode"
      · subst hm
        rw [ServiceB.GetWeatherHandler_notFound cep apiKey locO wthO eo hv2 hl]
        show spanStartsOf (ServiceB.fetchLocation locO cep).2 =
          spanEndsOf (ServiceB.fetchLocation locO cep).2
        rw [(fetchLocation_spans locO cep).1, (fetchLocation_spans locO cep).2]
      · rw [ServiceB.GetWeatherHandler_locError cep apiKey m locO wthO eo
          hv2 hl hm]
        show spanStartsOf (ServiceB.fetchLocation locO cep).2 =
          spanEndsOf (ServiceB.fetchLocation locO cep).2
        rw [(fetchLocation_spans locO cep).1, (fetchLocation_spans locO cep).2]
    | ok loc =>
      cases hw : (ServiceB.fetchWeather apiKey wthO loc.Localidade).1 with
      | error m =>
        rw [ServiceB.GetWeatherHandler_wthError cep apiKey m locO wthO eo
          loc hv2 hl hw]
        show spanStartsOf ((ServiceB.fetchLocation locO cep).2 ++
            (ServiceB.fetchWeather apiKey wthO loc.Localidade).2) =
          spanEndsOf ((ServiceB.fetchLocation locO cep).2 ++
            (ServiceB.fetchWeather apiKey wthO loc.Localidade).2)
        rw [spanStartsOf_append, spanEndsOf_append,
          (fetchLocation_spans locO cep).1, (fetchLocation_spans locO cep).2,
          (fetchWeather_spans apiKey wthO loc.Localidade).1,
          (fetchWeather_spans apiKey wthO loc.Localidade).2]
      | ok wr =>
        rw [ServiceB.GetWeatherHandler_success cep apiKey locO wthO eo
          loc wr hv2 hl hw]
        show spanStartsOf ((ServiceB.fetchLocation locO cep).2 ++
            (ServiceB.fetchWeather apiKey wthO loc.Localidade).2) =
          spanEndsOf ((ServiceB.fetchLocation locO cep).2 ++
            (ServiceB.fetchWeather apiKey wthO loc.Localidade).2)
        rw [spanStartsOf_append, spanEndsOf_append,
          (fetchLocation_spans locO cep).1, (fetchLocation_spans locO cep).2,
          (fetchWeather_spans apiKey wthO loc.Localidade).1,
          (fetchWeather_spans apiKey wthO loc.Localidade).2]

/-- C8 counterexample: when the success-path encode fails after the 200
status line has gone out, the handler calls http.Error as well: the run
writes the success payload, then a second status line 500 and an error
text, so the emitted sequence is not one single complete response and an
error status is written after the success payload. -/
theorem c8_encode_failure_after_200 :
    (ServiceB.GetWeatherHandler "01001000" "key"
        (.jsonBody (Json.obj [("localidade", Json.str "Sao Paulo")]))
        (.jsonBody (Json.obj [("current", Json.obj [("temp_c", Json.num 20)])]))
        (some "write tcp: broken pipe")).ops =
      [.writeHeader 200,
       .write (.jsonBody
         { City := "Sao Paulo", TempC := 20, TempF := 68, TempK := 293 }),
       .writeHeader 500, .write (.errText "write tcp: broken pipe")] ∧
    ServiceB.singleResponse (ServiceB.GetWeatherHandler "01001000" "key"
        (.jsonBody (Json.obj [("localidade", Json.str "Sao Paulo")]))
        (.jsonBody (Json.obj [("current", Json.obj [("temp_c", Json.num 20)])]))
        (some "write tcp: broken pipe")).ops = false ∧
    ServiceB.statusWrites (ServiceB.GetWeatherHandler "01001000" "key"
        (.jsonBody (Json.obj [("localidade", Json.str "Sao Paulo")]))
        (.jsonBody (Json.obj [("current", Json.obj [("temp_c", Json.num 20)])]))
        (some "write tcp: broken pipe")).ops = [200, 500] := by
  have h := ServiceB.GetWeatherHandler_success "01001000" "key"
    (.jsonBody (Json.obj [("localidade", Json.str "Sao Paulo")]))
    (.jsonBody (Json.obj [("current", Json.obj [("temp_c", Json.num 20)])]))
    (some "write tcp: broken pipe")
    { Localidade := "Sao Paulo", Erro := "" } { CurrentTempC := 20 }
    (by decide) rfl rfl
  refine ⟨?_, ?_, ?_⟩
  · rw [h]
    norm_num [ServiceB.httpError]
  · rw [h]
    rfl
  · rw [h]
    rfl

/-- C8 (amended): the Gateway always emits exactly one status line
followed by one complete body, and the Orchestrator does so on every
path on which the success-payload write succeeds; when that write fails
after the 200 status line is committed, the Orchestrator instead appends
an error report under the already-committed 200 status. -/
theorem c8_single_complete_response :
    (∀ (body : Option Json) (o : ServiceA.UpstreamOutcome),
      ServiceA.singleResponse
        (ServiceA.GetWeatherViaServiceB body o).ops = true) ∧
    (∀ (cep apiKey : String) (locO wthO : ServiceB.HttpResult),
      ServiceB.singleResponse
        (ServiceB.GetWeatherHandler cep apiKey locO wthO none).ops = true) := by
  constructor
  · intro body o
    cases body with
    | none => rfl
    | some j =>
      cases hd : ServiceA.decodeCEPRequest j with
      | error m =>
        simp [ServiceA.GetWeatherViaServiceB, hd, ServiceA.httpError,
          ServiceA.singleResponse]
      | ok req =>
        by_cases hv : ServiceA.isValidCEP req.CEP = false
        · simp [ServiceA.GetWeatherViaServiceB, hd, hv, ServiceA.httpError,
            ServiceA.singleResponse]
        · cases o <;>
            simp [ServiceA.GetWeatherViaServiceB, hd, hv, ServiceA.httpError,
              ServiceA.singleResponse]
  · intro cep apiKey locO wthO
    by_cases hv : ServiceB.isValidCEP cep = false
    · rw [ServiceB.GetWeatherHandler_invalid cep apiKey locO wthO none hv]
      rfl
    · have hv2 : ServiceB.isValidCEP cep = true := by
        cases h : ServiceB.isValidCEP cep
        · exact absurd h hv
        · rfl
      cases hl : (ServiceB.fetchLocation locO cep).1 with
      | error m =>
        by_cases hm : m = "can not find zipcode"
        · subst hm
          rw [ServiceB.GetWeatherHandler_notFound cep apiKey locO wthO none
            hv2 hl]
          rfl
        · rw [ServiceB.GetWeatherHandler_locError cep apiKey m locO wthO none
            hv2 hl hm]
          rfl
      | ok loc =>
        cases hw : (ServiceB.fetchWeather apiKey wthO loc.Localidade).1 with
        | error m =>
          rw [ServiceB.GetWeatherHandler_wthError cep apiKey m locO wthO none
            loc hv2 hl hw]
          rfl
        | ok wr =>
          rw [ServiceB.GetWeatherHandler_success cep apiKey locO wthO none
            loc wr hv2 hl hw]
          rfl
